import Mathlib

/-!
Verification development for the sherpa content system.

Shallow embedding of the data layer (database.go) and its HTTP form
handler (handlers.go).  Relational tables are modelled as lists of row
records; SQL ORDER BY is modelled as sorting by the ordering key
(`List.insertionSort`, a sorted permutation); `QueryRow` row lookup by
primary key is `List.find?`; transactions buffer writes and a rollback
restores the pre-transaction store.
-/

namespace Sherpa

/-- The single-quote character used by the simplistic DEFAULT quoting in
`updateTableSchema` via fmt.Sprintf. -/
def sq : String := String.singleton (Char.ofNat 39)

/-- The double-quote character, one of the characters rejected inside a
column type by `updateTableSchema`. -/
def dq : Char := Char.ofNat 34

/-- First character of the Go identifier regexp `[a-zA-Z_]`. -/
def isIdentStart (c : Char) : Bool := c.isAlpha || c = '_'

/-- Subsequent characters of the Go identifier regexp `[a-zA-Z0-9_]`. -/
def isIdentChar (c : Char) : Bool := isIdentStart c || c.isDigit

/-- database.go `validIdentifier`: full match of `^[a-zA-Z_][a-zA-Z0-9_]*$`. -/
def validIdentifier (s : String) : Bool :=
  match s.data with
  | [] => false
  | c :: cs => isIdentStart c && cs.all isIdentChar

/-- The characters Go rejects inside a column type:
strings.ContainsAny on the column type: semicolon, closing parenthesis, single quote, double quote. -/
def typeBadChars : List Char := [';', ')', Char.ofNat 39, dq]

/-- Go strings.ContainsAny over `typeBadChars`. -/
def containsAnyBadType (s : String) : Bool :=
  s.data.any (fun c => typeBadChars.contains c)

/-- database.go `ColumnDetail` (sql.NullString modelled as Option). -/
structure ColumnDetail where
  Field : String
  fieldType : String
  Null : String
  Key : String
  Default : Option String
  Extra : String
deriving DecidableEq, Repr

/-- The three validation errors `updateTableSchema` can return, one per
`fmt.Errorf` site. -/
inductive SchemaError where
  | invalidTableName (t : String)
  | invalidColumnName (c : String)
  | invalidTypeChars (t : String)
deriving DecidableEq, Repr

/-- Whether a `SchemaError` is one of the two identifier-grammar failures
(Go messages "invalid table name"/"invalid column name"). -/
def SchemaError.isInvalidIdent : SchemaError → Bool
  | .invalidTableName _ => true
  | .invalidColumnName _ => true
  | .invalidTypeChars _ => false

/-- One MODIFY COLUMN clause, exactly as `updateTableSchema` builds it:
backtick-quoted field, raw type, NULL flag, simplistic single-quoted
default, raw extra. -/
def composeClause (col : ColumnDetail) : String :=
  let c0 := "MODIFY COLUMN `" ++ col.Field ++ "` " ++ col.fieldType
  let c1 := if col.Null = "NO" then c0 ++ " NOT NULL" else c0 ++ " NULL"
  let c2 := match col.Default with
    | some s => if s = "" then c1 else c1 ++ " DEFAULT " ++ sq ++ s ++ sq
    | none => c1
  if col.Extra = "" then c2 else c2 ++ " " ++ col.Extra

/-- The per-column validation loop of `updateTableSchema`: fails on the
first invalid column name or bad-character type, otherwise returns the
composed clauses in submission order. -/
def validateColumns : List ColumnDetail → Except SchemaError (List String)
  | [] => .ok []
  | col :: rest =>
    if !validIdentifier col.Field then .error (.invalidColumnName col.Field)
    else if containsAnyBadType col.fieldType then .error (.invalidTypeChars col.fieldType)
    else
      match validateColumns rest with
      | .error e => .error e
      | .ok cs => .ok (composeClause col :: cs)

/-- database.go `updateTableSchema`: validates, composes, and returns the
single ALTER TABLE statement to execute (`none` when there are no
columns, matching the early `return nil`). -/
def updateTableSchema (tableName : String) (columns : List ColumnDetail) :
    Except SchemaError (Option String) :=
  if !validIdentifier tableName then .error (.invalidTableName tableName)
  else
    match validateColumns columns with
    | .error e => .error e
    | .ok clauses =>
      if clauses.isEmpty then .ok none
      else .ok (some ("ALTER TABLE `" ++ tableName ++ "` " ++ String.intercalate ", " clauses))

/-- The alteration statements actually issued to the store by one
`updateTableSchema` call: empty on any validation error and when there
are no clauses. -/
def appliedStatements (tableName : String) (columns : List ColumnDetail) : List String :=
  match updateTableSchema tableName columns with
  | .ok (some q) => [q]
  | _ => []

/-- One column of the schema-editor form, the six `col_i_*` values read
by `updateSchemaHandler` in handlers.go. -/
structure FormColumn where
  field : String
  ftype : String
  null : String
  key : String
  extra : String
  defaultVal : String
deriving DecidableEq, Repr

/-- handlers.go `updateSchemaHandler` column construction: every form
value is passed through verbatim; the default becomes a valid NullString
only when non-empty. -/
def formToColumn (f : FormColumn) : ColumnDetail :=
  { Field := f.field, fieldType := f.ftype, Null := f.null, Key := f.key,
    Default := if f.defaultVal = "" then none else some f.defaultVal,
    Extra := f.extra }

/-- handlers.go `updateSchemaHandler`: builds the columns from the form
and calls `updateTableSchema` — no semantic-type translation, no
allowlist is applied anywhere on the way. -/
def updateSchemaHandler (tableName : String) (form : List FormColumn) :
    Except SchemaError (Option String) :=
  updateTableSchema tableName (form.map formToColumn)

/-- A row of the content_piece table (the columns the embedded
operations touch), following the Go `ContentPiece` struct. -/
structure ContentPiece where
  ID : Int
  Class : String
  Title : String
deriving DecidableEq, Repr

/-- A row of content_piece_contlets (one composition edge). -/
structure CompositionRow where
  content_piece_id : Int
  contlet_id : Int
  sort_order : Int
deriving DecidableEq, Repr

/-- A row of contlet_paragraph. -/
structure ParagraphRow where
  id : Int
  text_content : String
deriving DecidableEq, Repr

/-- A row of contlet_image (the columns read by getPieceByID). -/
structure ImageRow where
  id : Int
  src : String
  alt_text : String
deriving DecidableEq, Repr

/-- A row of contlet_heading. -/
structure HeadingRow where
  id : Int
  text_content : String
  level : Int
deriving DecidableEq, Repr

/-- A row of the tag table. -/
structure TagRow where
  id : Int
  taxonomy_id : Int
  value : String
deriving DecidableEq, Repr

/-- A row of the taxonomy table. -/
structure TaxonomyRow where
  id : Int
  name : String
deriving DecidableEq, Repr

/-- The relational store: each table is a list of rows; `nextEntityId`
is the AUTO_INCREMENT counter of the entity table. -/
structure Store where
  nextEntityId : Int
  entities : List Int
  contentPieces : List ContentPiece
  pieceContlets : List CompositionRow
  paragraphs : List ParagraphRow
  images : List ImageRow
  headings : List HeadingRow
  tags : List TagRow
  taxonomies : List TaxonomyRow
deriving DecidableEq, Repr

/-- Store-level errors surfaced by the data layer: `noRows` is
sql.ErrNoRows, `execError` any failed statement/commit. -/
inductive DBError where
  | noRows
  | execError (op : String)
deriving DecidableEq, Repr

/-- Go `ContletDetail`: the normalized record built per contlet. -/
structure ContletDetail where
  ID : Int
  Class : String
  TextContent : String
  Src : String
  AltText : String
  Level : Int
deriving DecidableEq, Repr

/-- Go `PieceDetail`. -/
structure PieceDetail where
  ID : Int
  Class : String
  Title : String
  Contlets : List ContletDetail
deriving DecidableEq, Repr

/-- The CASE expression in the query of getPieceByID: probe the three variant
tables in the fixed order paragraph, image, heading; otherwise the
literal string unknown. -/
def contletClass (st : Store) (cid : Int) : String :=
  if (st.paragraphs.find? (fun r => r.id = cid)).isSome then "paragraph"
  else if (st.images.find? (fun r => r.id = cid)).isSome then "image"
  else if (st.headings.find? (fun r => r.id = cid)).isSome then "heading"
  else "unknown"

/-- Build one `ContletDetail` the way the scan-and-switch of getPieceByID
does: the class decides which joined columns are copied; everything else
keeps the zero value. -/
def resolveContlet (st : Store) (cid : Int) : ContletDetail :=
  let cls := contletClass st cid
  if cls = "paragraph" then
    { ID := cid, Class := cls,
      TextContent := (st.paragraphs.find? (fun r => r.id = cid)).elim "" (fun r => r.text_content),
      Src := "", AltText := "", Level := 0 }
  else if cls = "heading" then
    { ID := cid, Class := cls,
      TextContent := (st.headings.find? (fun r => r.id = cid)).elim "" (fun r => r.text_content),
      Src := "", AltText := "",
      Level := (st.headings.find? (fun r => r.id = cid)).elim 0 (fun r => r.level) }
  else if cls = "image" then
    { ID := cid, Class := cls, TextContent := "",
      Src := (st.images.find? (fun r => r.id = cid)).elim "" (fun r => r.src),
      AltText := (st.images.find? (fun r => r.id = cid)).elim "" (fun r => r.alt_text),
      Level := 0 }
  else
    { ID := cid, Class := cls, TextContent := "", Src := "", AltText := "", Level := 0 }

/-- Ordering key of the getPieceByID query: `ORDER BY cpc.sort_order ASC`. -/
def edgeLE (a b : CompositionRow) : Prop := a.sort_order ≤ b.sort_order

instance : DecidableRel edgeLE :=
  fun a b => (inferInstance : Decidable (a.sort_order ≤ b.sort_order))

instance : IsTotal CompositionRow edgeLE :=
  ⟨fun a b => Int.le_total a.sort_order b.sort_order⟩

instance : IsTrans CompositionRow edgeLE :=
  ⟨fun _ _ _ hab hbc => le_trans hab hbc⟩

/-- The composition edges of one piece in the order the query returns
them (ORDER BY modelled as a sorted permutation). -/
def orderedEdges (st : Store) (id : Int) : List CompositionRow :=
  List.insertionSort edgeLE (st.pieceContlets.filter (fun e => e.content_piece_id = id))

/-- database.go `getPieceByID`: QueryRow on content_piece (sql.ErrNoRows
when absent), then the ordered join over the variant tables. -/
def getPieceByID (st : Store) (id : Int) : Except DBError PieceDetail :=
  match st.contentPieces.find? (fun r => r.ID = id) with
  | none => .error .noRows
  | some pr =>
    .ok { ID := pr.ID, Class := pr.Class, Title := pr.Title,
          Contlets := (orderedEdges st id).map (fun e => resolveContlet st e.contlet_id) }

/-- database.go `createContentPiece`: one transaction inserting into
entity then content_piece; the three booleans are the verdict of the store on
each Exec/Commit; any failure rolls the buffered writes back. -/
def createContentPiece (st : Store) (title cls : String)
    (entityInsertFails pieceInsertFails commitFails : Bool) :
    Except DBError Int × Store :=
  if entityInsertFails then (.error (.execError "failed to create entity for piece"), st)
  else
    let id := st.nextEntityId
    let st1 := { st with nextEntityId := id + 1, entities := st.entities ++ [id] }
    if pieceInsertFails then (.error (.execError "failed to insert into content_piece"), st)
    else
      let st2 := { st1 with contentPieces := st1.contentPieces ++ [{ ID := id, Class := cls, Title := title }] }
      if commitFails then (.error (.execError "commit"), st)
      else (.ok id, st2)

/-- database.go `updateContentPiece`: a single UPDATE ... WHERE id = ?;
rows that match are rewritten, and the call succeeds regardless of how
many rows matched. -/
def updateContentPiece (st : Store) (id : Int) (title cls : String) :
    Except DBError Unit × Store :=
  (.ok (),
   { st with contentPieces :=
      st.contentPieces.map (fun r => if r.ID = id then { r with Title := title, Class := cls } else r) })

/-- Go `Tag`: one row of the getAllTags result. -/
structure Tag where
  ID : Int
  Value : String
  TaxonomyName : String
deriving DecidableEq, Repr

/-- Ordering key of the getAllTags query, `ORDER BY tx.name, t.value`:
lexicographic comparison of taxonomy name, then value (character
sequences compared by the lexicographic list order). -/
def tagOrder (a b : Tag) : Prop :=
  a.TaxonomyName.data < b.TaxonomyName.data ∨
    (a.TaxonomyName = b.TaxonomyName ∧ a.Value.data ≤ b.Value.data)

instance : DecidableRel tagOrder := fun a b => by
  unfold tagOrder
  exact inferInstance

instance : IsTotal Tag tagOrder := by
  constructor
  intro a b
  rcases lt_trichotomy a.TaxonomyName.data b.TaxonomyName.data with h | h | h
  · exact Or.inl (Or.inl h)
  · have hs : a.TaxonomyName = b.TaxonomyName := String.ext h
    rcases le_total a.Value.data b.Value.data with hv | hv
    · exact Or.inl (Or.inr ⟨hs, hv⟩)
    · exact Or.inr (Or.inr ⟨hs.symm, hv⟩)
  · exact Or.inr (Or.inl h)

instance : IsTrans Tag tagOrder := by
  constructor
  intro a b c hab hbc
  rcases hab with hab | ⟨hab, hab2⟩
  · rcases hbc with hbc | ⟨hbc, _⟩
    · exact Or.inl (lt_trans hab hbc)
    · exact Or.inl (by rw [← hbc]; exact hab)
  · rcases hbc with hbc | ⟨hbc, hbc2⟩
    · exact Or.inl (by rw [hab]; exact hbc)
    · exact Or.inr ⟨hab.trans hbc, le_trans hab2 hbc2⟩

/-- database.go `getAllTags`: inner join tag–taxonomy on taxonomy_id,
ordered by taxonomy name then value. -/
def getAllTags (st : Store) : List Tag :=
  List.insertionSort tagOrder
    (st.tags.filterMap (fun t =>
      (st.taxonomies.find? (fun tx => tx.id = t.taxonomy_id)).map
        (fun tx => { ID := t.id, Value := t.value, TaxonomyName := tx.name })))

/-- Schema-editor submission of the semantic type name as the column
type (what the UI described in architecture.md would send). -/
def c1FormCol : FormColumn :=
  { field := "title", ftype := "Single Line of Text", null := "YES",
    key := "", extra := "", defaultVal := "" }

/-- Schema-editor submission of a raw physical type. -/
def c1RawCol : FormColumn :=
  { field := "title", ftype := "TEXT", null := "YES",
    key := "", extra := "", defaultVal := "" }

/-- A column whose type fails the bad-character scan. -/
def c2ColBadType : ColumnDetail :=
  { Field := "c0", fieldType := "a;b", Null := "YES", Key := "",
    Default := none, Extra := "" }

/-- A column whose name fails the identifier grammar. -/
def c2ColBadName : ColumnDetail :=
  { Field := "bad name", fieldType := "INT", Null := "YES", Key := "",
    Default := none, Extra := "" }

/-- The spec test vector: column name carrying an injection payload. -/
def c2InjectionCol : ColumnDetail :=
  { Field := "name; DROP TABLE x", fieldType := "TEXT", Null := "YES", Key := "",
    Default := none, Extra := "" }

/-- A column whose default value contains a single-quote character. -/
def c3Col : ColumnDetail :=
  { Field := "status", fieldType := "TEXT", Null := "NO", Key := "",
    Default := some ("O" ++ sq ++ "Brien"), Extra := "" }

/-- The statement `updateTableSchema` composes for `c3Col`: the raw
default breaks out of its quotes (three quote characters in total). -/
def c3Stmt : String :=
  "ALTER TABLE `content_piece` MODIFY COLUMN `status` TEXT NOT NULL DEFAULT "
    ++ sq ++ "O" ++ sq ++ "Brien" ++ sq

/-- Schema-editor submission carrying a statement delimiter and DROP in
the extra-attribute field. -/
def c4FormCol : FormColumn :=
  { field := "id", ftype := "INT", null := "NO",
    key := "", extra := "; DROP TABLE entity", defaultVal := "" }

/-- The empty store. -/
def st0 : Store :=
  { nextEntityId := 1, entities := [], contentPieces := [], pieceContlets := [],
    paragraphs := [], images := [], headings := [], tags := [], taxonomies := [] }

/-- A store whose single piece references contlet 42, which has a row in
no variant table. -/
def c5st : Store :=
  { st0 with
    contentPieces := [{ ID := 1, Class := "blog_post", Title := "T" }],
    pieceContlets := [{ content_piece_id := 1, contlet_id := 42, sort_order := 100 }] }

/-- The sort-key scenario of the spec: contlets attached at keys
100, 200, 300 and then one attached at the explicit key 150. -/
def c7st : Store :=
  { st0 with
    contentPieces := [{ ID := 1, Class := "blog_post", Title := "P" }],
    paragraphs :=
      [{ id := 10, text_content := "t10" }, { id := 20, text_content := "t20" },
       { id := 30, text_content := "t30" }, { id := 40, text_content := "t40" }],
    pieceContlets :=
      [{ content_piece_id := 1, contlet_id := 10, sort_order := 100 },
       { content_piece_id := 1, contlet_id := 20, sort_order := 200 },
       { content_piece_id := 1, contlet_id := 30, sort_order := 300 },
       { content_piece_id := 1, contlet_id := 40, sort_order := 150 }] }

/-- The piece detail getPieceByID returns for `c7st`, contlets in sort
key order 100, 150, 200, 300. -/
def c7pd : PieceDetail :=
  { ID := 1, Class := "blog_post", Title := "P",
    Contlets :=
      [{ ID := 10, Class := "paragraph", TextContent := "t10", Src := "", AltText := "", Level := 0 },
       { ID := 40, Class := "paragraph", TextContent := "t40", Src := "", AltText := "", Level := 0 },
       { ID := 20, Class := "paragraph", TextContent := "t20", Src := "", AltText := "", Level := 0 },
       { ID := 30, Class := "paragraph", TextContent := "t30", Src := "", AltText := "", Level := 0 }] }

/-- A store holding one content piece with id 1 (so id 7 matches no row). -/
def c8st : Store :=
  { st0 with contentPieces := [{ ID := 1, Class := "blog_post", Title := "A" }] }

/-- Two taxonomies and two tags for exercising getAllTags. -/
def c9st : Store :=
  { st0 with
    taxonomies := [{ id := 1, name := "Technology" }, { id := 2, name := "Animals" }],
    tags := [{ id := 10, taxonomy_id := 1, value := "Go" },
             { id := 11, taxonomy_id := 2, value := "Cat" }] }

/-- A store in which contlet 5 has a row in both the paragraph and the
image variant tables. -/
def c10st : Store :=
  { st0 with
    paragraphs := [{ id := 5, text_content := "pp" }],
    images := [{ id := 5, src := "s.png", alt_text := "alt" }] }

/-- C1: contrary to the claim, there is no semantic-to-physical type
mapping anywhere on the schema-change path.  Submitting the semantic
name "Single Line of Text" as the column type is not rejected with any
UnknownSemanticType failure; the handler and updateTableSchema pass it
verbatim into the composed ALTER statement, and a caller-supplied raw
physical type (TEXT) is likewise embedded verbatim. -/
theorem updateSchemaHandler_no_semantic_mapping :
    updateSchemaHandler "content_piece" [c1FormCol] =
      .ok (some "ALTER TABLE `content_piece` MODIFY COLUMN `title` Single Line of Text NULL") ∧
    containsAnyBadType "Single Line of Text" = false ∧
    updateSchemaHandler "content_piece" [c1RawCol] =
      .ok (some "ALTER TABLE `content_piece` MODIFY COLUMN `title` TEXT NULL") :=
  ⟨rfl, by decide, rfl⟩

/-- C2 counterexample: a submission whose second column name fails the
identifier grammar, but whose first column type fails the character scan,
is rejected with the invalid-type-characters error, not with an
InvalidIdentifier error, so the claim as stated is false. -/
theorem updateTableSchema_badname_not_ident_error :
    validIdentifier c2ColBadName.Field = false ∧
    updateTableSchema "content_piece" [c2ColBadType, c2ColBadName] =
      .error (.invalidTypeChars "a;b") ∧
    SchemaError.isInvalidIdent (.invalidTypeChars "a;b") = false :=
  ⟨by decide, rfl, by decide⟩

/-- Every submission containing a column with an invalid name makes the
per-column validation loop fail, with either an identifier error or an
earlier bad-character type error. -/
theorem validateColumns_error_of_bad_field (cols : List ColumnDetail)
    (h : ∃ c ∈ cols, validIdentifier c.Field = false) :
    ∃ e, validateColumns cols = .error e ∧
      (e.isInvalidIdent = true ∨
        ∃ c ∈ cols, containsAnyBadType c.fieldType = true ∧ e = .invalidTypeChars c.fieldType) := by
  induction cols with
  | nil => simp at h
  | cons col rest ih =>
    cases hf : validIdentifier col.Field with
    | false =>
      exact ⟨.invalidColumnName col.Field, by simp [validateColumns, hf], Or.inl rfl⟩
    | true =>
      cases ht : containsAnyBadType col.fieldType with
      | true =>
        refine ⟨.invalidTypeChars col.fieldType, by simp [validateColumns, hf, ht], ?_⟩
        exact Or.inr ⟨col, List.mem_cons_self col rest, ht, rfl⟩
      | false =>
        have hrest : ∃ c ∈ rest, validIdentifier c.Field = false := by
          rcases h with ⟨c, hc, hbad⟩
          rcases List.mem_cons.mp hc with rfl | hc2
          · rw [hf] at hbad; cases hbad
          · exact ⟨c, hc2, hbad⟩
        rcases ih hrest with ⟨e, he, hkind⟩
        refine ⟨e, by simp [validateColumns, hf, ht, he], ?_⟩
        rcases hkind with hk | ⟨c, hc, hcb, hce⟩
        · exact Or.inl hk
        · exact Or.inr ⟨c, List.mem_cons_of_mem col hc, hcb, hce⟩

/-- C2 amended: for every schema-change submission whose table name or
some column name fails the identifier grammar, updateTableSchema returns
a validation error — an InvalidIdentifier error unless a column placed
before the first invalid name already fails the type character scan, in
which case that invalid-type error is returned — and no alteration
statement is executed. -/
theorem updateTableSchema_rejects_invalid_identifiers
    (t : String) (cols : List ColumnDetail)
    (h : validIdentifier t = false ∨ ∃ c ∈ cols, validIdentifier c.Field = false) :
    (∃ e, updateTableSchema t cols = .error e ∧
      (e.isInvalidIdent = true ∨
        ∃ c ∈ cols, containsAnyBadType c.fieldType = true ∧ e = .invalidTypeChars c.fieldType)) ∧
    appliedStatements t cols = [] := by
  have herr : ∃ e, updateTableSchema t cols = .error e ∧
      (e.isInvalidIdent = true ∨
        ∃ c ∈ cols, containsAnyBadType c.fieldType = true ∧ e = .invalidTypeChars c.fieldType) := by
    cases htab : validIdentifier t with
    | false =>
      exact ⟨.invalidTableName t, by simp [updateTableSchema, htab], Or.inl rfl⟩
    | true =>
      have hcols : ∃ c ∈ cols, validIdentifier c.Field = false := by
        rcases h with h | h
        · rw [htab] at h; cases h
        · exact h
      rcases validateColumns_error_of_bad_field cols hcols with ⟨e, he, hkind⟩
      exact ⟨e, by simp [updateTableSchema, htab, he], hkind⟩
  rcases herr with ⟨e, he, hkind⟩
  exact ⟨⟨e, he, hkind⟩, by simp [appliedStatements, he]⟩

/-- C2 witness: the spec test vector, a column named
"name; DROP TABLE x", is rejected and nothing is executed. -/
theorem updateTableSchema_rejects_invalid_identifiers_witness :
    (∃ e, updateTableSchema "content_piece" [c2InjectionCol] = .error e ∧
      (e.isInvalidIdent = true ∨
        ∃ c ∈ [c2InjectionCol], containsAnyBadType c.fieldType = true ∧
          e = .invalidTypeChars c.fieldType)) ∧
    appliedStatements "content_piece" [c2InjectionCol] = [] :=
  updateTableSchema_rejects_invalid_identifiers "content_piece" [c2InjectionCol]
    (Or.inr ⟨c2InjectionCol, List.mem_singleton.mpr rfl, by decide⟩)

/-- C3: the default value is not routed through any escaping or
parameterization primitive; updateTableSchema concatenates it between
two literal quote characters, so a default containing a quote yields a
statement with three (unbalanced) quote characters — the value changes
the structure of the statement. -/
theorem updateTableSchema_default_concatenated_raw :
    updateTableSchema "content_piece" [c3Col] = .ok (some c3Stmt) ∧
    (c3Stmt.data.filter (fun c => c = Char.ofNat 39)).length = 3 :=
  ⟨rfl, by decide⟩

/-- C4: the extra-attribute form field is checked against no allowlist;
arbitrary text, including a statement delimiter and a DROP, is appended
verbatim to the composed alteration statement. -/
theorem updateSchemaHandler_extra_not_allowlisted :
    updateSchemaHandler "content_piece" [c4FormCol] =
      .ok (some "ALTER TABLE `content_piece` MODIFY COLUMN `id` INT NOT NULL ; DROP TABLE entity") :=
  rfl

/-- C8 counterexample: updating a content piece whose id matches no row
reports success (and leaves the store unchanged) instead of failing with
NotFound. -/
theorem updateContentPiece_missing_reports_success :
    updateContentPiece c8st 7 "x" "y" = (.ok (), c8st) := rfl

/-- When no variant table holds the id, resolution yields the literal
class unknown and zero values for every field. -/
theorem resolveContlet_of_no_match (st : Store) (cid : Int)
    (hp : st.paragraphs.find? (fun r => r.id = cid) = none)
    (hi : st.images.find? (fun r => r.id = cid) = none)
    (hh : st.headings.find? (fun r => r.id = cid) = none) :
    resolveContlet st cid =
      { ID := cid, Class := "unknown", TextContent := "", Src := "", AltText := "", Level := 0 } := by
  have hcls : contletClass st cid = "unknown" := by
    simp [contletClass, hp, hi, hh]
  simp [resolveContlet, hcls]

/-- C5 counterexample: contlet 42 is referenced by piece 1 but matches a
row in zero variant tables; getPieceByID surfaces no error at all — it
returns the piece with the contlet silently classified unknown. -/
theorem getPieceByID_zero_match_no_error :
    getPieceByID c5st 1 =
      .ok { ID := 1, Class := "blog_post", Title := "T",
            Contlets := [{ ID := 42, Class := "unknown", TextContent := "",
                           Src := "", AltText := "", Level := 0 }] } := rfl

/-- C5 amended: when the piece row exists, the ordered read always
succeeds — integrity violations are never surfaced — and every resolved
contlet id that matches zero variant tables is classified with the
default variant unknown and empty fields. -/
theorem getPieceByID_defaults_instead_of_integrity_error (st : Store) (id : Int)
    (h : (st.contentPieces.find? (fun r => r.ID = id)).isSome) :
    ∃ pd, getPieceByID st id = .ok pd ∧
      pd.Contlets = (orderedEdges st id).map (fun e => resolveContlet st e.contlet_id) ∧
      ∀ cid : Int,
        st.paragraphs.find? (fun r => r.id = cid) = none →
        st.images.find? (fun r => r.id = cid) = none →
        st.headings.find? (fun r => r.id = cid) = none →
          resolveContlet st cid =
            { ID := cid, Class := "unknown", TextContent := "", Src := "",
              AltText := "", Level := 0 } := by
  rcases Option.isSome_iff_exists.mp h with ⟨pr, hpr⟩
  refine ⟨{ ID := pr.ID, Class := pr.Class, Title := pr.Title,
            Contlets := (orderedEdges st id).map (fun e => resolveContlet st e.contlet_id) },
          ?_, rfl, fun cid hp hi hh => resolveContlet_of_no_match st cid hp hi hh⟩
  simp [getPieceByID, hpr]

/-- C5 witness: the amended statement instantiated at the concrete store
in which contlet 42 matches no variant table. -/
theorem getPieceByID_defaults_instead_of_integrity_error_witness :
    ∃ pd, getPieceByID c5st 1 = .ok pd ∧
      pd.Contlets = (orderedEdges c5st 1).map (fun e => resolveContlet c5st e.contlet_id) ∧
      ∀ cid : Int,
        c5st.paragraphs.find? (fun r => r.id = cid) = none →
        c5st.images.find? (fun r => r.id = cid) = none →
        c5st.headings.find? (fun r => r.id = cid) = none →
          resolveContlet c5st cid =
            { ID := cid, Class := "unknown", TextContent := "", Src := "",
              AltText := "", Level := 0 } :=
  getPieceByID_defaults_instead_of_integrity_error c5st 1 (by decide)

/-- C6: createContentPiece is atomic — whenever the entity insert, the
class-row insert, or the commit fails, the resulting store is exactly
the original one (the buffered entity allocation is rolled back), and on
success both the entity allocation and the class row are applied
together. -/
theorem createContentPiece_atomic (st : Store) (title cls : String) (ef pf cf : Bool) :
    ((∃ e, (createContentPiece st title cls ef pf cf).1 = .error e) →
        (createContentPiece st title cls ef pf cf).2 = st) ∧
    (∀ id, (createContentPiece st title cls ef pf cf).1 = .ok id →
        (createContentPiece st title cls ef pf cf).2 =
          { st with nextEntityId := id + 1, entities := st.entities ++ [id],
                    contentPieces := st.contentPieces ++ [{ ID := id, Class := cls, Title := title }] }) := by
  cases ef with
  | true => exact ⟨fun _ => rfl, fun id hid => by cases hid⟩
  | false =>
    cases pf with
    | true => exact ⟨fun _ => rfl, fun id hid => by cases hid⟩
    | false =>
      cases cf with
      | true => exact ⟨fun _ => rfl, fun id hid => by cases hid⟩
      | false =>
        refine ⟨fun he => ?_, fun id hid => ?_⟩
        · rcases he with ⟨e, he⟩; cases he
        · have : st.nextEntityId = id := by
            have := hid
            simpa [createContentPiece] using this
          subst this
          rfl

/-- C6 witness: a create whose class-row insert fails leaves the empty
store unchanged — the allocated entity id does not survive. -/
theorem createContentPiece_atomic_witness :
    (createContentPiece st0 "T" "blog_post" false true false).2 = st0 :=
  (createContentPiece_atomic st0 "T" "blog_post" false true false).1
    ⟨.execError "failed to insert into content_piece", rfl⟩

/-- C7: the ordered read materializes the contlets of a piece following
the composition edges sorted ascending by sort key: the edge sequence it
maps over is sorted under edgeLE and is a permutation of exactly the
edges of the piece. -/
theorem getPieceByID_reads_sorted_by_sort_key (st : Store) (id : Int) (pd : PieceDetail)
    (h : getPieceByID st id = .ok pd) :
    List.Sorted edgeLE (orderedEdges st id) ∧
    List.Perm (orderedEdges st id) (st.pieceContlets.filter (fun e => e.content_piece_id = id)) ∧
    pd.Contlets = (orderedEdges st id).map (fun e => resolveContlet st e.contlet_id) := by
  refine ⟨List.sorted_insertionSort edgeLE _, List.perm_insertionSort edgeLE _, ?_⟩
  unfold getPieceByID at h
  cases hf : st.contentPieces.find? (fun r => r.ID = id) with
  | none => rw [hf] at h; cases h
  | some pr =>
    rw [hf] at h
    cases h
    rfl

/-- C7 witness: attaching contlets at sort keys 100, 200, 300 and then
one at the explicit key 150 makes the read return them in key order
100, 150, 200, 300. -/
theorem getPieceByID_reads_sorted_by_sort_key_witness :
    (List.Sorted edgeLE (orderedEdges c7st 1) ∧
     List.Perm (orderedEdges c7st 1) (c7st.pieceContlets.filter (fun e => e.content_piece_id = 1)) ∧
     c7pd.Contlets = (orderedEdges c7st 1).map (fun e => resolveContlet c7st e.contlet_id)) ∧
    (orderedEdges c7st 1).map (fun e => e.sort_order) = [100, 150, 200, 300] ∧
    (orderedEdges c7st 1).map (fun e => e.contlet_id) = [10, 40, 20, 30] :=
  ⟨getPieceByID_reads_sorted_by_sort_key c7st 1 c7pd rfl, by decide, by decide⟩

/-- C8 amended: when no content piece row carries the requested id, the
update reports success and leaves every row of the store unchanged; no
NotFound failure is produced. -/
theorem updateContentPiece_missing_succeeds_unchanged (st : Store) (id : Int)
    (title cls : String) (h : ∀ r ∈ st.contentPieces, r.ID ≠ id) :
    updateContentPiece st id title cls = (.ok (), st) := by
  unfold updateContentPiece
  have hmap : st.contentPieces.map
      (fun r => if r.ID = id then { r with Title := title, Class := cls } else r) =
      st.contentPieces := by
    conv_rhs => rw [← List.map_id st.contentPieces]
    exact List.map_congr_left (fun r hr => by simp [h r hr])
  rw [hmap]

/-- C8 witness: the amended statement at the store whose only piece has
id 1 and the absent id 7. -/
theorem updateContentPiece_missing_succeeds_unchanged_witness :
    updateContentPiece c8st 7 "x" "y" = (.ok (), c8st) :=
  updateContentPiece_missing_succeeds_unchanged c8st 7 "x" "y" (by decide)

/-- Under unique taxonomy ids (the taxonomy table primary key), the row
lookup used by the tag join finds exactly the matching taxonomy. -/
theorem find_taxonomy_by_unique_id (txs : List TaxonomyRow) (tx : TaxonomyRow) (tid : Int)
    (hmem : tx ∈ txs) (hid : tx.id = tid)
    (hnd : (txs.map (fun x => x.id)).Nodup) :
    txs.find? (fun x => x.id = tid) = some tx := by
  induction txs with
  | nil => cases hmem
  | cons a rest ih =>
    rw [List.map_cons, List.nodup_cons] at hnd
    rcases List.mem_cons.mp hmem with rfl | hmem2
    · exact List.find?_cons_of_pos _ (by simp [hid])
    · have ha : ¬(a.id = tid) := by
        intro hae
        have : a.id ∈ rest.map (fun x => x.id) := by
          rw [hae, ← hid]
          exact List.mem_map_of_mem (fun x => x.id) hmem2
        exact hnd.1 this
      rw [List.find?_cons_of_neg _ (by simp [ha])]
      exact ih hmem2 hnd.2

/-- C9: listing all tags returns the result sorted by taxonomy name and
then tag value, and — when taxonomy ids are unique, as the primary key
guarantees — it contains the (value, taxonomy name) pair of every tag
whose taxonomy exists. -/
theorem getAllTags_ordered_by_taxonomy_then_value (st : Store)
    (hnd : (st.taxonomies.map (fun tx => tx.id)).Nodup) :
    List.Sorted tagOrder (getAllTags st) ∧
    ∀ t ∈ st.tags, ∀ tx ∈ st.taxonomies, tx.id = t.taxonomy_id →
      ({ ID := t.id, Value := t.value, TaxonomyName := tx.name } : Tag) ∈ getAllTags st := by
  refine ⟨List.sorted_insertionSort tagOrder _, ?_⟩
  intro t ht tx htx hid
  unfold getAllTags
  refine (List.perm_insertionSort tagOrder _).mem_iff.mpr ?_
  refine List.mem_filterMap.mpr ⟨t, ht, ?_⟩
  rw [find_taxonomy_by_unique_id st.taxonomies tx t.taxonomy_id htx hid hnd]
  rfl

/-- C9 witness: two taxonomies and two tags; the listing is sorted,
complete, and concretely equal to the Animals/Cat, Technology/Go order. -/
theorem getAllTags_ordered_by_taxonomy_then_value_witness :
    (List.Sorted tagOrder (getAllTags c9st) ∧
     ∀ t ∈ c9st.tags, ∀ tx ∈ c9st.taxonomies, tx.id = t.taxonomy_id →
       ({ ID := t.id, Value := t.value, TaxonomyName := tx.name } : Tag) ∈ getAllTags c9st) ∧
    getAllTags c9st =
      [{ ID := 11, Value := "Cat", TaxonomyName := "Animals" },
       { ID := 10, Value := "Go", TaxonomyName := "Technology" }] :=
  ⟨getAllTags_ordered_by_taxonomy_then_value c9st (by decide), by decide⟩

/-- C10: contlet classification is a fixed-priority probe with no error
path: a paragraph row wins over any image or heading row, an image row
wins over any heading row, a heading row is used otherwise, and an id in
no variant table resolves to variant unknown with empty fields. -/
theorem resolveContlet_fixed_priority (st : Store) (cid : Int) :
    (∀ p, st.paragraphs.find? (fun r => r.id = cid) = some p →
        resolveContlet st cid =
          { ID := cid, Class := "paragraph", TextContent := p.text_content,
            Src := "", AltText := "", Level := 0 }) ∧
    (st.paragraphs.find? (fun r => r.id = cid) = none →
      ∀ i, st.images.find? (fun r => r.id = cid) = some i →
        resolveContlet st cid =
          { ID := cid, Class := "image", TextContent := "",
            Src := i.src, AltText := i.alt_text, Level := 0 }) ∧
    (st.paragraphs.find? (fun r => r.id = cid) = none →
      st.images.find? (fun r => r.id = cid) = none →
      ∀ hrow, st.headings.find? (fun r => r.id = cid) = some hrow →
        resolveContlet st cid =
          { ID := cid, Class := "heading", TextContent := hrow.text_content,
            Src := "", AltText := "", Level := hrow.level }) ∧
    (st.paragraphs.find? (fun r => r.id = cid) = none →
      st.images.find? (fun r => r.id = cid) = none →
      st.headings.find? (fun r => r.id = cid) = none →
        resolveContlet st cid =
          { ID := cid, Class := "unknown", TextContent := "", Src := "",
            AltText := "", Level := 0 }) := by
  refine ⟨?_, ?_, ?_, ?_⟩
  · intro p hp
    have hcls : contletClass st cid = "paragraph" := by simp [contletClass, hp]
    simp [resolveContlet, hcls, hp]
  · intro hp i hi
    have hcls : contletClass st cid = "image" := by simp [contletClass, hp, hi]
    simp [resolveContlet, hcls, hi]
  · intro hp hi hrow hh
    have hcls : contletClass st cid = "heading" := by simp [contletClass, hp, hi, hh]
    simp [resolveContlet, hcls, hh]
  · intro hp hi hh
    exact resolveContlet_of_no_match st cid hp hi hh

/-- C10 witness: contlet 5 sits in both the paragraph and the image
table; the resolution deterministically classifies it as a paragraph and
projects the paragraph fields. -/
theorem resolveContlet_fixed_priority_witness :
    resolveContlet c10st 5 =
      { ID := 5, Class := "paragraph", TextContent := "pp",
        Src := "", AltText := "", Level := 0 } :=
  (resolveContlet_fixed_priority c10st 5).1 { id := 5, text_content := "pp" } rfl

end Sherpa
